import Mathlib

set_option maxRecDepth 8000

/- Shallow embedding of the letterboxd_wrapped enrichment pipeline.

   Source layout:
   - api/analyze.py                       embedded under namespace Analyze
   - backend/app/main.py                  embedded under namespace Backend
   - frontend/app/api/analyze/route.py    embedded under namespace Front

   Conventions used throughout:
   - A pandas DataFrame loaded from an optional CSV is embedded as
     Option (List row): none is the column-less frame produced by
     pd.DataFrame() when the file is absent, some rows is a frame read from a
     CSV (it has its header columns, rows possibly empty).
   - Network and disk are explicit function and state parameters; an
     aiohttp.ClientError outcome is a constructor, not an exception.
   - Python exceptions that source code converts to values (broad except
     blocks) are embedded as the values they are converted to; Python
     exceptions that escape a function are embedded as an Except error. -/

/- A Python year cell coming out of pandas: None, NaN, or a number. -/
inductive PyYear
  | pnone
  | nan
  | int (n : ℤ)
deriving DecidableEq, Repr

/- Python truthiness of the year cell: None and 0 are falsy, NaN is truthy. -/
def PyYear.truthy : PyYear → Bool
  | .pnone => false
  | .nan => true
  | .int n => decide (n ≠ 0)

/- Python slicing s[:n] on strings, written over the character list so that
   it evaluates by kernel reduction. -/
def strTake (s : String) (n : ℕ) : String := String.mk (s.toList.take n)

/- Strip leading and trailing whitespace, as int() does before parsing. -/
def trimChars (cs : List Char) : List Char :=
  ((cs.dropWhile Char.isWhitespace).reverse.dropWhile Char.isWhitespace).reverse

/- Embedding of the Python int() conversion applied to a string: optional
   surrounding whitespace, an optional sign, then at least one digit
   (digit-grouping underscores are not modelled). Returns none exactly where
   int() raises ValueError. -/
def pyInt? (s : String) : Option ℤ :=
  let cs := trimChars s.toList
  let neg : Bool := match cs with
    | c :: _ => c = '-'
    | [] => false
  let core := match cs with
    | c :: rest => if c = '-' || c = '+' then rest else cs
    | [] => []
  if !core.isEmpty && core.all Char.isDigit then
    let n : ℕ := core.foldl (fun a c => a * 10 + (c.toNat - 48)) 0
    some (if neg then -(n : ℤ) else (n : ℤ))
  else none

/- The decade bucket string built by both fetchers: (year // 10) * 10 with an
   s suffix, using Python floor division. -/
def decadeStr (y : ℤ) : String := toString (Int.fdiv y 10 * 10) ++ "s"

/- pandas drop_duplicates and Series.unique keep the first occurrence. -/
def dedupFirstAux {α : Type} [DecidableEq α] (seen : List α) : List α → List α
  | [] => []
  | x :: xs => if x ∈ seen then dedupFirstAux seen xs else x :: dedupFirstAux (x :: seen) xs

def dedupFirst {α : Type} [DecidableEq α] (l : List α) : List α := dedupFirstAux [] l

/- Occurrence count used by the counting statistics. -/
def countOcc {α : Type} [DecidableEq α] (v : α) (xs : List α) : ℕ :=
  (xs.filter (fun x => decide (x = v))).length

/- Stable descending-by-count insertion, embedding Counter.most_common and
   value_counts + nlargest: ties stay in first-seen order. -/
def insertByCountDesc {α : Type} (p : α × ℕ) : List (α × ℕ) → List (α × ℕ)
  | [] => [p]
  | q :: qs => if q.2 < p.2 then p :: q :: qs else q :: insertByCountDesc p qs

def countDesc {α : Type} [DecidableEq α] (xs : List α) : List (α × ℕ) :=
  ((dedupFirst xs).map (fun v => (v, countOcc v xs))).foldl
    (fun acc p => insertByCountDesc p acc) []

/- Ascending-by-key insertion, embedding value_counts().sort_index(). -/
def insertByKeyAsc {α : Type} (lt : α → α → Bool) (p : α × ℕ) : List (α × ℕ) → List (α × ℕ)
  | [] => [p]
  | q :: qs => if lt p.1 q.1 then p :: q :: qs else q :: insertByKeyAsc lt p qs

def valueCountsAsc {α : Type} [DecidableEq α] (lt : α → α → Bool) (xs : List α) :
    List (α × ℕ) :=
  ((dedupFirst xs).map (fun v => (v, countOcc v xs))).foldl
    (fun acc p => insertByKeyAsc lt p acc) []

def qlt (a b : ℚ) : Bool := decide (a < b)

/- Code-point lexicographic order on strings, as Python compares them. -/
def strltChars : List Char → List Char → Bool
  | [], [] => false
  | [], _ :: _ => true
  | _ :: _, [] => false
  | a :: as, b :: bs => if a < b then true else if b < a then false else strltChars as bs

def strLt (a b : String) : Bool := strltChars a.toList b.toList

/- Python round() -- round half to even -- on exact rationals. Ratings and the
   tiny sums involved here are exactly representable, so rationals stand in
   for the floats of the source. -/
def roundHalfEvenZ (x : ℚ) : ℤ :=
  let f := Rat.floor x
  let r := x - (f : ℚ)
  if r < 1 / 2 then f
  else if 1 / 2 < r then f + 1
  else if f % 2 = 0 then f else f + 1

def roundQ (x : ℚ) (ndigits : ℕ) : ℚ :=
  let m : ℚ := ((10 ^ ndigits : ℕ) : ℚ)
  ((roundHalfEvenZ (x * m) : ℤ) : ℚ) / m

/- DataFrame.empty for the Option-embedded frames. -/
def dfEmpty {α : Type} : Option (List α) → Bool
  | none => true
  | some l => l.isEmpty

/- Series.mode().iloc[0]: among the most frequent values, pandas mode()
   returns them sorted ascending, so iloc[0] is the smallest. -/
def modeSmallest (xs : List ℚ) : Option ℚ :=
  let pairs := (dedupFirst xs).map (fun v => (v, countOcc v xs))
  let maxC := pairs.foldl (fun a p => max a p.2) 0
  let cands := (pairs.filter (fun p => decide (p.2 = maxC))).map (fun p => p.1)
  cands.foldl (fun a v => match a with
    | none => some v
    | some w => some (min w v)) none

/- The Python exceptions that escape the embedded fragments. -/
inductive PyError
  | noUsableData        -- ValueError: No usable data found (analyze.py, route.py)
  | watchedRequired     -- ValueError: watched.csv is required (main.py)
  | keyError (key : String)
  | jsonDecodeError     -- json.JSONDecodeError from response.json(), a ValueError
deriving DecidableEq, Repr

/- List helper with structural recursion for the one-row-to-many merge. -/
def flatMapL {α β : Type} (f : α → List β) : List α → List β
  | [] => []
  | x :: xs => f x ++ flatMapL f xs

/- Decidable equality for Except results, used to evaluate the embedded
   pipelines on concrete inputs. -/
instance exceptDecEq {e a : Type} [DecidableEq e] [DecidableEq a] :
    DecidableEq (Except e a) := fun x y =>
  match x, y with
  | .error u, .error v =>
    match decEq u v with
    | isTrue h => isTrue (by rw [h])
    | isFalse h => isFalse (fun hc => h (Except.error.inj hc))
  | .ok u, .ok v =>
    match decEq u v with
    | isTrue h => isTrue (by rw [h])
    | isFalse h => isFalse (fun hc => h (Except.ok.inj hc))
  | .error _, .ok _ => isFalse (fun hc => Except.noConfusion hc)
  | .ok _, .error _ => isFalse (fun hc => Except.noConfusion hc)

/- ---------------------------------------------------------------------- -/
/- TMDb client: tmdb_get (identical logic in analyze.py and main.py).     -/
/- ---------------------------------------------------------------------- -/

/- A request parameter value: strings and ints occur in the source. -/
inductive PVal
  | str (v : String)
  | int (n : ℤ)
deriving DecidableEq, Repr

abbrev Params : Type := List (String × PVal)

/- Python dict assignment params[k] = v: overwrite in place, else append,
   preserving insertion order. -/
def insertParam (k : String) (v : PVal) : Params → Params
  | [] => [(k, v)]
  | (x, w) :: rest => if x = k then (k, v) :: rest else (x, w) :: insertParam k v rest

def lookupParam (k : String) (ps : Params) : Option PVal :=
  (ps.find? (fun q => decide (q.1 = k))).map (fun q => q.2)

def pvalRender : PVal → String
  | .str v => v
  | .int n => toString n

/- json.dumps(params, sort_keys=True): deterministic rendering with keys in
   sorted order. -/
def sortParamsByKey (ps : Params) : Params :=
  ps.foldl (fun acc p => insertByKeyStr p acc) []
where
  insertByKeyStr (p : String × PVal) : Params → Params
    | [] => [p]
    | q :: qs => if strLt p.1 q.1 then p :: q :: qs else q :: insertByKeyStr p qs

def serializeParams (ps : Params) : String :=
  (sortParamsByKey ps).foldl (fun acc p => acc ++ p.1 ++ "=" ++ pvalRender p.2 ++ ";") ""

/- The md5 cache key over endpoint and the sorted parameter dump; md5 itself
   is modelled as the identity on its input text (collisions ignored). -/
def cacheKeyOf (endpoint : String) (ps : Params) : String :=
  endpoint ++ serializeParams ps

/- A cache file on disk: its payload, and whether json.loads can read it
   (readable = false embeds a corrupt or unreadable entry). -/
structure CacheEntry (P : Type) where
  payload : P
  readable : Bool
deriving DecidableEq, Repr

structure ClientState (P : Type) where
  cache : List (String × CacheEntry P)
deriving DecidableEq, Repr

/- Outcome of one attempted HTTP GET as seen at the await response.json()
   boundary:
   - ok: the parsed body.
   - clientError: any aiohttp.ClientError -- a transport error, the status
     error from raise_for_status, or the ContentTypeError that response.json()
     raises when the body is served with a non-JSON content type. This class
     is what the except clause catches.
   - jsonDecodeError: response.json() on a body served WITH a JSON content
     type but holding malformed JSON raises json.JSONDecodeError, a ValueError
     that is not an aiohttp.ClientError, so the except clause does not catch
     it and it propagates out of tmdb_get. -/
inductive NetResult (P : Type)
  | ok (data : P)
  | clientError
  | jsonDecodeError
deriving DecidableEq, Repr

/- The outcome of one tmdb_get call: the returned value (or the Python
   exception that escaped it), the cache state afterwards, and the network
   requests attempted, in order. -/
structure GetOutcome (P : Type) where
  result : Except PyError (Option P)
  state : ClientState P
  requests : List (String × Params)
deriving DecidableEq, Repr

def lookupCache {P : Type} (key : String) (st : ClientState P) : Option (CacheEntry P) :=
  (st.cache.find? (fun q => decide (q.1 = key))).map (fun q => q.2)

def writeCache {P : Type} (key : String) (p : P) (st : ClientState P) : ClientState P :=
  ⟨(key, ⟨p, true⟩) :: st.cache.filter (fun q => decide (q.1 ≠ key))⟩

/- params = params or {}; params[api_key] = TMDB_API_KEY. As a value the
   resulting dict is the same whether the caller passed None, an empty dict or
   a non-empty dict. -/
def tmdb_params (apiKey : String) (params0 : Option Params) : Params :=
  insertParam "api_key" (.str apiKey) (params0.getD [])

def tmdb_cacheKey (apiKey : String) (endpoint : String) (params0 : Option Params) : String :=
  cacheKeyOf endpoint (tmdb_params apiKey params0)

/- What the CALLER of tmdb_get observes in its own params dict after the call.
   params or {} rebinds the local name to a fresh dict when the caller passed
   None or an empty (falsy) dict, so only a non-empty caller dict is mutated
   in place by the api_key assignment. -/
def tmdb_callerParams (apiKey : String) (params0 : Option Params) : Option Params :=
  params0.map (fun p => if p.isEmpty then p else insertParam "api_key" (.str apiKey) p)

/- The non-cache branch of tmdb_get: one GET; on success write the cache and
   return the body; on an aiohttp.ClientError return None leaving the state
   unchanged; on json.JSONDecodeError the exception escapes uncaught, also
   before any cache write (the write sits after the parse). -/
def tmdb_fetchFresh {P : Type} (apiKey : String) (net : String → Params → NetResult P)
    (st : ClientState P) (endpoint : String) (params0 : Option Params) : GetOutcome P :=
  let params := tmdb_params apiKey params0
  match net endpoint params with
  | .ok data => ⟨.ok (some data),
                 writeCache (tmdb_cacheKey apiKey endpoint params0) data st,
                 [(endpoint, params)]⟩
  | .clientError => ⟨.ok none, st, [(endpoint, params)]⟩
  | .jsonDecodeError => ⟨.error .jsonDecodeError, st, [(endpoint, params)]⟩

/- tmdb_get(session, endpoint, params=None, cache=True) of analyze.py lines
   48-74 and main.py lines 91-123. The aiohttp session is the pair (net, st);
   the module-global TMDB_API_KEY is the apiKey parameter. -/
def tmdb_get {P : Type} (apiKey : String) (net : String → Params → NetResult P)
    (st : ClientState P) (endpoint : String) (params0 : Option Params)
    (useCache : Bool) : GetOutcome P :=
  if useCache then
    match lookupCache (tmdb_cacheKey apiKey endpoint params0) st with
    | some e =>
      if e.readable then ⟨.ok (some e.payload), st, []⟩
      else tmdb_fetchFresh apiKey net st endpoint params0
    | none => tmdb_fetchFresh apiKey net st endpoint params0
  else tmdb_fetchFresh apiKey net st endpoint params0

/- ---------------------------------------------------------------------- -/
/- Title resolver: resolve_tmdb_id (identical in analyze.py and main.py). -/
/- ---------------------------------------------------------------------- -/

/- One element of the search results array; the id key may be absent, in
   which case results[0] of it raises KeyError, swallowed by the broad
   except of the resolver. -/
structure SearchResult where
  id : Option ℤ
deriving DecidableEq, Repr

/- A parsed search/movie body; data.get(results, []) defaults a missing
   results key to the empty list. -/
structure SearchData where
  results : Option (List SearchResult)
deriving DecidableEq, Repr

/- The year constraint actually attached to the first query:
   if year and not pd.isna(year): params[year] = int(year). -/
def yearParamOf : PyYear → Option ℤ
  | .int n => if n ≠ 0 then some n else none
  | _ => none

/- results = data.get(results, []) if data else [] -/
def resolveResultsOf (search : String → Option ℤ → Option SearchData)
    (title : String) (yp : Option ℤ) : List SearchResult :=
  match search title yp with
  | some d => d.results.getD []
  | none => []

def firstId (rs : List SearchResult) : Option ℤ :=
  match rs.head? with
  | some r => r.id
  | none => none

/- resolve_tmdb_id, also returning the year-parameters of the search queries
   it issued, in order. search title yp stands for tmdb_get on search/movie
   with the query and, when yp is some, the year parameter. -/
def resolve_tmdb_id_run (search : String → Option ℤ → Option SearchData)
    (title : String) (year : PyYear) : Option ℤ × List (Option ℤ) :=
  let yp := yearParamOf year
  let results := resolveResultsOf search title yp
  if results.isEmpty && year.truthy then
    (firstId (resolveResultsOf search title none), [yp, none])
  else
    (firstId results, [yp])

def resolve_tmdb_id (search : String → Option ℤ → Option SearchData)
    (title : String) (year : PyYear) : Option ℤ :=
  (resolve_tmdb_id_run search title year).1

/- ---------------------------------------------------------------------- -/
/- Metadata fetchers.                                                     -/
/- ---------------------------------------------------------------------- -/

structure CrewMember where
  name : String
  job : String
deriving DecidableEq, Repr

/- A parsed movie/{id} body. Fields the source reads with .get carry the
   missing key as none; list-valued fields carry the .get default [] already
   applied, holding the name entries of their element dicts. -/
structure TmdbDetails where
  title : Option String := none
  original_title : Option String := none
  release_date : Option String := none
  runtime : Option ℤ := none
  original_language : Option String := none
  budget : Option ℤ := none
  revenue : Option ℤ := none
  popularity : Option ℚ := none
  vote_average : Option ℚ := none
  vote_count : Option ℤ := none
  tagline : Option String := none
  overview : Option String := none
  adult : Option Bool := none
  status : Option String := none
  poster_path : Option String := none
  backdrop_path : Option String := none
  genres : List String := []
  production_countries : List String := []
  production_companies : List String := []
deriving DecidableEq, Repr

/- A parsed movie/{id}/credits body: crew entries and the billed cast names
   in billing order. -/
structure TmdbCredits where
  crew : List CrewMember := []
  cast : List String := []
deriving DecidableEq, Repr

/- A parsed movie/{id}/keywords body. -/
structure TmdbKeywords where
  keywords : List String := []
deriving DecidableEq, Repr

namespace Analyze

/- The metadata dict built by api/analyze.py fetch_comprehensive_film_details
   lines 116-122, minus the tmdb_id key. -/
structure AnalyzeRecord where
  title : String := ""
  release_date : String := ""
  runtime : Option ℤ := none
  language : Option String := none
  vote_average : ℚ := 0
  decade : Option String := none
  director : Option String := none
  directors : List String := []
  cast : List String := []
  genres : List String := []
  countries : List String := []
  poster_path : String := ""
deriving DecidableEq, Repr

/- One row of metadata_df. rest = none is the record {tmdb_id: id} produced
   by the broad except handler at line 125: in the DataFrame every other
   column of that row is NaN. -/
structure AnalyzeMetaRow where
  tmdb_id : ℤ
  rest : Option AnalyzeRecord
deriving DecidableEq, Repr

/- The synchronous tail of fetch_comprehensive_film_details in analyze.py,
   lines 103-125, applied to the three gathered responses. In this variant
   the decade line int(release_date[:4]) is NOT wrapped in its own try, so a
   malformed date raises ValueError into the outer except, which returns the
   minimal record {tmdb_id: id}. -/
def recordRest (d : TmdbDetails) (credits : Option TmdbCredits) : Option AnalyzeRecord :=
  let crew := match credits with
    | some c => c.crew
    | none => []
  let directors := (crew.filter (fun m => decide (m.job = "Director"))).map (fun m => m.name)
  let cast := (match credits with
    | some c => c.cast
    | none => []).take 10
  let release_date := d.release_date.getD ""
  if release_date ≠ "" && (pyInt? (strTake release_date 4)).isNone then
    none
  else
    some { title := d.title.getD ""
           release_date := release_date
           runtime := d.runtime
           language := d.original_language
           vote_average := d.vote_average.getD 0
           decade := if release_date ≠ "" then (pyInt? (strTake release_date 4)).map decadeStr
                     else none
           director := directors.head?
           directors := directors
           cast := cast
           genres := d.genres
           countries := d.production_countries
           poster_path := d.poster_path.getD "" }

/- fetch_comprehensive_film_details of analyze.py lines 91-125. A falsy
   details body (client returned None) yields the empty dict, embedded as
   none; it is filtered out of metadata_results by the if-m filter at line 165.
   The keywords response is gathered but its content is unused (the
   keyword_list local is dead in this variant). -/
def fetch_comprehensive_film_details (tmdb_id : ℤ) (details : Option TmdbDetails)
    (credits : Option TmdbCredits) (_keywords : Option TmdbKeywords) :
    Option AnalyzeMetaRow :=
  match details with
  | none => none
  | some d => some ⟨tmdb_id, recordRest d credits⟩

end Analyze

namespace Backend

/- The metadata dict built by main.py fetch_comprehensive_film_details
   lines 180-190. -/
structure BackendRecord where
  tmdb_id : ℤ
  title : String := ""
  original_title : String := ""
  release_date : String := ""
  runtime : Option ℤ := none
  language : Option String := none
  budget : ℤ := 0
  revenue : ℤ := 0
  popularity : ℚ := 0
  vote_average : ℚ := 0
  vote_count : ℤ := 0
  decade : Option String := none
  tagline : String := ""
  overview : String := ""
  director : Option String := none
  directors : List String := []
  writers : List String := []
  cast : List String := []
  genres : List String := []
  countries : List String := []
  companies : List String := []
  keywords : List String := []
  adult : Bool := false
  status : String := ""
  poster_path : String := ""
  backdrop_path : String := ""
deriving DecidableEq, Repr

/- fetch_comprehensive_film_details of main.py lines 144-193. Here the decade
   computation sits in its own try catching ValueError, so a malformed
   release date only nulls the decade. -/
def fetch_comprehensive_film_details (tmdb_id : ℤ) (details : Option TmdbDetails)
    (credits : Option TmdbCredits) (keywords : Option TmdbKeywords) :
    Option BackendRecord :=
  match details with
  | none => none
  | some d =>
    let crew := match credits with
      | some c => c.crew
      | none => []
    let directors := (crew.filter (fun m => decide (m.job = "Director"))).map (fun m => m.name)
    let writers := (crew.filter (fun m =>
        decide (m.job = "Writer") || decide (m.job = "Screenplay") || decide (m.job = "Story"))).map
        (fun m => m.name)
    let cast := (match credits with
      | some c => c.cast
      | none => []).take 10
    let keyword_list := match keywords with
      | some k => k.keywords
      | none => []
    let release_date := d.release_date.getD ""
    let decade := if release_date ≠ "" then
        match pyInt? (strTake release_date 4) with
        | some y => some (decadeStr y)
        | none => none            -- int() raised ValueError, caught by the inner try
      else none
    some { tmdb_id := tmdb_id
           title := d.title.getD ""
           original_title := d.original_title.getD ""
           release_date := release_date
           runtime := d.runtime
           language := d.original_language
           budget := d.budget.getD 0
           revenue := d.revenue.getD 0
           popularity := d.popularity.getD 0
           vote_average := d.vote_average.getD 0
           vote_count := d.vote_count.getD 0
           decade := decade
           tagline := d.tagline.getD ""
           overview := d.overview.getD ""
           director := directors.head?
           directors := directors
           writers := writers
           cast := cast
           genres := d.genres
           countries := d.production_countries
           companies := d.production_companies
           keywords := keyword_list
           adult := d.adult.getD false
           status := d.status.getD ""
           poster_path := d.poster_path.getD ""
           backdrop_path := d.backdrop_path.getD "" }

end Backend

/- ---------------------------------------------------------------------- -/
/- Batch orchestrators.                                                   -/
/- ---------------------------------------------------------------------- -/

/- One row of the ratings (or diary) table after the column renames:
   Name -> title, Year -> year, Rating -> rating. Ratings may be NaN. -/
structure RatingsRow where
  title : String
  year : PyYear
  rating : Option ℚ
deriving DecidableEq, Repr

namespace Analyze

/- One row of films_enriched: the left columns of the merge plus the matched
   metadata row (none where the merge filled NaN). After the merge the left
   and right title columns are suffixed to title_x and title_y; the title
   field here is the left one. -/
structure EnrichedRow where
  title : String
  year : PyYear
  tmdb_id : Option ℤ
  meta : Option AnalyzeMetaRow
deriving DecidableEq, Repr

def rowKey (r : EnrichedRow) : String × PyYear := (r.title, r.year)

def metaRest (r : EnrichedRow) : Option AnalyzeRecord :=
  r.meta.bind (fun m => m.rest)

/- The stats dict built by analyze.py lines 171-184, for runs that reach the
   return. average_rating none embeds the NaN that round(mean) leaves when
   every rating is missing. -/
structure AnalyzeStats where
  average_rating : Option ℚ
  rating_distribution : List (ℚ × ℕ)
  hours_watched : ℚ
  longest_film : Option (String × ℤ)
  shortest_film : Option (String × ℤ)
  top_directors : List (String × ℕ)
  top_genres : List (String × ℕ)
  top_countries : List (String × ℕ)
  decade_distribution : List (String × ℕ)
deriving DecidableEq, Repr

/- films_df[[title, year]].drop_duplicates(), line 151. -/
def uniqueFilmsOf (rrows : List RatingsRow) : List (String × PyYear) :=
  dedupFirst (rrows.map (fun r => (r.title, r.year)))

/- Phase 1, lines 155-157: one resolver task per unique film, results stored
   as the tmdb_id column alongside each key. -/
def resolvedOf (resolve : String → PyYear → Option ℤ)
    (uniq : List (String × PyYear)) : List ((String × PyYear) × Option ℤ) :=
  uniq.map (fun k => (k, resolve k.1 k.2))

/- unique_films[tmdb_id].dropna().unique(), line 161: distinct non-null
   resolved ids in first-occurrence order. -/
def fetchIdsOf (ids : List (Option ℤ)) : List ℤ :=
  dedupFirst (ids.filterMap (fun x => x))

/- Phase 2, lines 163-165: one fetch per distinct id; empty dicts are
   dropped by the if-m filter. -/
def metadataOf (details : ℤ → Option TmdbDetails) (credits : ℤ → Option TmdbCredits)
    (keywords : ℤ → Option TmdbKeywords) (ids : List ℤ) : List AnalyzeMetaRow :=
  ids.filterMap (fun i => fetch_comprehensive_film_details i (details i) (credits i) (keywords i))

/- The rows a single left row contributes to pd.merge(.., on=tmdb_id,
   how=left): a NaN key matches nothing; otherwise one output row per
   matching right row, or a NaN-filled row when there is no match. -/
def mergeRowsFor (md : List AnalyzeMetaRow) (p : (String × PyYear) × Option ℤ) :
    List EnrichedRow :=
  match p.2 with
  | none => [⟨p.1.1, p.1.2, none, none⟩]
  | some i =>
    match md.filter (fun m => decide (m.tmdb_id = i)) with
    | [] => [⟨p.1.1, p.1.2, some i, none⟩]
    | ms => ms.map (fun m => ⟨p.1.1, p.1.2, some i, some m⟩)

def leftMerge (uf : List ((String × PyYear) × Option ℤ)) (md : List AnalyzeMetaRow) :
    List EnrichedRow :=
  flatMapL (mergeRowsFor md) uf

/- Lines 150-168 of analyze.py: dedup, resolve, dedup ids, fetch, left merge.
   When every fetch result was dropped, metadata_df = pd.DataFrame([]) has no
   columns at all, and pd.merge(unique_films, metadata_df, on=tmdb_id,
   how=left) raises KeyError: tmdb_id. -/
def films_enriched_of (resolve : String → PyYear → Option ℤ)
    (details : ℤ → Option TmdbDetails) (credits : ℤ → Option TmdbCredits)
    (keywords : ℤ → Option TmdbKeywords) (rrows : List RatingsRow) :
    Except PyError (List EnrichedRow) :=
  let uf := resolvedOf resolve (uniqueFilmsOf rrows)
  let md := metadataOf details credits keywords (fetchIdsOf (uf.map (fun p => p.2)))
  if md.isEmpty then .error (.keyError "tmdb_id")
  else .ok (leftMerge uf md)

/- The statistics tail of analyze.py, lines 171-187, over films_df (the raw
   renamed ratings rows) and films_enriched.

   Column shape of films_enriched: metadata_df has every record column
   exactly when at least one fetched row is a full record (a row from the
   except handler contributes only tmdb_id). When no full record exists,
   line 181 films_enriched[director] raises KeyError. When full records
   exist, the left and right title columns were suffixed away by the merge,
   so line 178 row[[title, runtime]] raises KeyError as soon as runtimes is
   non-empty. -/
def statsOf (rrows : List RatingsRow) (fe : List EnrichedRow) :
    Except PyError AnalyzeStats :=
  let ratingVals := rrows.filterMap (fun r => r.rating)
  let average_rating : Option ℚ :=
    if ratingVals.isEmpty then none
    else some (roundQ (ratingVals.sum / (ratingVals.length : ℚ)) 2)
  let rating_distribution := valueCountsAsc qlt ratingVals
  let anyFull := fe.any (fun r => (metaRest r).isSome)
  if anyFull then
    let runtimes := (fe.filterMap (fun r => (metaRest r).bind (fun m => m.runtime))).filter
      (fun x => decide (0 < x))
    if !runtimes.isEmpty then .error (.keyError "title")
    else
      .ok { average_rating := average_rating
            rating_distribution := rating_distribution
            hours_watched := roundQ (((runtimes.sum : ℤ) : ℚ) / 60) 1
            longest_film := none
            shortest_film := none
            top_directors := (countDesc (fe.filterMap (fun r => (metaRest r).bind
              (fun m => m.director)))).take 10
            top_genres := (countDesc (flatMapL (fun r => match metaRest r with
              | some m => m.genres
              | none => []) fe)).take 10
            top_countries := (countDesc (flatMapL (fun r => match metaRest r with
              | some m => m.countries
              | none => []) fe)).take 10
            decade_distribution := valueCountsAsc strLt (fe.filterMap (fun r =>
              (metaRest r).bind (fun m => m.decade))) }
  else .error (.keyError "director")

/- process_comprehensive_letterboxd_data of analyze.py lines 142-187, with
   the resolver and the per-endpoint fetch responses as parameters. The
   ratings and diary arguments are the two loaded DataFrames; when
   ratings.csv is absent, films_df has no columns and the column selection
   films_df[[title, year]] at line 151 raises KeyError. -/
def process_comprehensive_letterboxd_data (resolve : String → PyYear → Option ℤ)
    (details : ℤ → Option TmdbDetails) (credits : ℤ → Option TmdbCredits)
    (keywords : ℤ → Option TmdbKeywords)
    (ratings : Option (List RatingsRow)) (diary : Option (List RatingsRow)) :
    Except PyError AnalyzeStats :=
  if dfEmpty ratings && dfEmpty diary then .error .noUsableData
  else
    match ratings with
    | none => .error (.keyError "title")
    | some rrows =>
      match films_enriched_of resolve details credits keywords rrows with
      | .error e => .error e
      | .ok fe => statsOf rrows fe

end Analyze

namespace Backend

/- The CSV loading and the input guard of main.py
   process_comprehensive_letterboxd_data, lines 228-236: the three frames are
   loaded (empty frames when absent) and the only check is on watched_df;
   ratings and diary are not consulted by the guard. -/
def process_load_guard (watched : Option (List RatingsRow))
    (_ratings : Option (List RatingsRow)) (_diary : Option (List RatingsRow)) :
    Except PyError Unit :=
  if dfEmpty watched then .error .watchedRequired else .ok ()

end Backend

namespace Front

/- The stats produced by route.py process_letterboxd_data that are not
   constant placeholders. average_rating and most_common_rating are present
   only when a non-null rating exists. -/
structure FrontStats where
  total_films : ℕ
  average_rating : Option ℚ
  most_common_rating : Option ℚ
deriving DecidableEq, Repr

/- process_letterboxd_data of route.py lines 17-75: ratings rows first, then
   the diary rows whose (title, year) key is not already present (the
   left-only half of the indicator merge); total_films counts the
   deduplicated keys. -/
def process_letterboxd_data (ratings : Option (List RatingsRow))
    (diary : Option (List RatingsRow)) : Except PyError FrontStats :=
  if dfEmpty ratings && dfEmpty diary then .error .noUsableData
  else
    let base : List RatingsRow := ratings.getD []
    let all_films : List RatingsRow := base ++ (match diary with
      | some ds =>
        if ds.isEmpty then []
        else if base.isEmpty then ds
        else ds.filter (fun r => !(base.any (fun b =>
          decide (b.title = r.title) && decide (b.year = r.year))))
      | none => [])
    let unique_films := dedupFirst (all_films.map (fun r => (r.title, r.year)))
    let ratingVals := all_films.filterMap (fun r => r.rating)
    .ok { total_films := unique_films.length
          average_rating :=
            if ratingVals.isEmpty then none
            else some (roundQ (ratingVals.sum / (ratingVals.length : ℚ)) 2)
          most_common_rating :=
            if ratingVals.isEmpty then none
            else modeSmallest ratingVals }

end Front

/- ---------------------------------------------------------------------- -/
/- Concrete inputs used by the witnesses below.                           -/
/- ---------------------------------------------------------------------- -/

def prowW : RatingsRow := ⟨"Parasite", .int 2019, some 5⟩

def resolveP : String → PyYear → Option ℤ := fun _ _ => some 496243

def detailsP : ℤ → Option TmdbDetails := fun _ => some
  { title := some "Parasite"
    release_date := some "2019-05-30"
    vote_average := some 8
    genres := ["Thriller"]
    production_countries := ["South Korea"] }

def creditsP : ℤ → Option TmdbCredits := fun _ => some
  { crew := [⟨"Bong Joon Ho", "Director"⟩], cast := ["Song Kang Ho"] }

def keywordsP : ℤ → Option TmdbKeywords := fun _ => none

def rowsW : List RatingsRow := [⟨"A", .int 2000, some 4⟩, ⟨"B", .int 2001, none⟩]

def resolveW : String → PyYear → Option ℤ := fun t _ => if t = "A" then some 1 else none

def detailsFnW : ℤ → Option TmdbDetails := fun _ => some {}

def creditsFnW : ℤ → Option TmdbCredits := fun _ => none

def keywordsFnW : ℤ → Option TmdbKeywords := fun _ => none

/- The enriched dataset that the pipeline produces on rowsW. -/
def dsW : List Analyze.EnrichedRow :=
  [⟨"A", .int 2000, some 1, some ⟨1, some {}⟩⟩,
   ⟨"B", .int 2001, none, none⟩]

def searchW : String → Option ℤ → Option SearchData := fun _ yp =>
  match yp with
  | some _ => some ⟨some []⟩
  | none => some ⟨some [⟨some 42⟩]⟩

def c5dW : TmdbDetails := { release_date := some "1994-09-23" }

def pwParams : Params := [("query", PVal.str "Q")]

def cacheKeyW : String := tmdb_cacheKey "K" "search/movie" (some pwParams)

def stHitW : ClientState ℕ := ⟨[(cacheKeyW, ⟨7, true⟩)]⟩

def netW : String → Params → NetResult ℕ := fun _ _ => .ok 99

def stEmptyW : ClientState ℕ := ⟨[]⟩

def netErrW : String → Params → NetResult ℕ := fun _ _ => .clientError

def netJsonErrW : String → Params → NetResult ℕ := fun _ _ => .jsonDecodeError

/- ---------------------------------------------------------------------- -/
/- Helper lemmas.                                                         -/
/- ---------------------------------------------------------------------- -/

theorem mem_dedupFirstAux {α : Type} [DecidableEq α] (a : α) :
    ∀ (l seen : List α), a ∈ dedupFirstAux seen l ↔ (a ∈ l ∧ a ∉ seen)
  | [], seen => by simp [dedupFirstAux]
  | x :: xs, seen => by
    by_cases hx : x ∈ seen
    · rw [show dedupFirstAux seen (x :: xs) = dedupFirstAux seen xs from by
        simp [dedupFirstAux, hx]]
      rw [mem_dedupFirstAux a xs seen]
      constructor
      · rintro ⟨h1, h2⟩
        exact ⟨List.mem_cons_of_mem _ h1, h2⟩
      · rintro ⟨h1, h2⟩
        rcases List.mem_cons.mp h1 with h1 | h1
        · subst h1; exact absurd hx h2
        · exact ⟨h1, h2⟩
    · rw [show dedupFirstAux seen (x :: xs) = x :: dedupFirstAux (x :: seen) xs from by
        simp [dedupFirstAux, hx]]
      rw [List.mem_cons, mem_dedupFirstAux a xs (x :: seen)]
      constructor
      · rintro (h | ⟨h1, h2⟩)
        · subst h; exact ⟨List.mem_cons_self _ _, hx⟩
        · refine ⟨List.mem_cons_of_mem _ h1, fun hs => h2 (List.mem_cons_of_mem _ hs)⟩
      · rintro ⟨h1, h2⟩
        by_cases hax : a = x
        · exact Or.inl hax
        · rcases List.mem_cons.mp h1 with h1 | h1
          · exact absurd h1 hax
          · refine Or.inr ⟨h1, fun hs => ?_⟩
            rcases List.mem_cons.mp hs with hs | hs
            · exact hax hs
            · exact h2 hs

theorem nodup_dedupFirstAux {α : Type} [DecidableEq α] :
    ∀ (l seen : List α), (dedupFirstAux seen l).Nodup
  | [], _ => by simp [dedupFirstAux]
  | x :: xs, seen => by
    by_cases hx : x ∈ seen
    · rw [show dedupFirstAux seen (x :: xs) = dedupFirstAux seen xs from by
        simp [dedupFirstAux, hx]]
      exact nodup_dedupFirstAux xs seen
    · rw [show dedupFirstAux seen (x :: xs) = x :: dedupFirstAux (x :: seen) xs from by
        simp [dedupFirstAux, hx]]
      rw [List.nodup_cons]
      refine ⟨fun hmem => ?_, nodup_dedupFirstAux xs (x :: seen)⟩
      rw [mem_dedupFirstAux] at hmem
      exact hmem.2 (List.mem_cons_self _ _)

theorem mem_dedupFirst {α : Type} [DecidableEq α] (a : α) (l : List α) :
    a ∈ dedupFirst l ↔ a ∈ l := by
  rw [dedupFirst, mem_dedupFirstAux]
  simp

theorem nodup_dedupFirst {α : Type} [DecidableEq α] (l : List α) :
    (dedupFirst l).Nodup :=
  nodup_dedupFirstAux l []

theorem mem_fetchIdsOf (ids : List (Option ℤ)) (i : ℤ) :
    i ∈ Analyze.fetchIdsOf ids ↔ some i ∈ ids := by
  rw [Analyze.fetchIdsOf, mem_dedupFirst, List.mem_filterMap]
  constructor
  · rintro ⟨a, ha, hfa⟩
    subst hfa
    exact ha
  · intro h
    exact ⟨some i, h, rfl⟩

theorem fetch_id_eq {i : ℤ} {d : Option TmdbDetails} {c : Option TmdbCredits}
    {k : Option TmdbKeywords} {m : Analyze.AnalyzeMetaRow}
    (h : Analyze.fetch_comprehensive_film_details i d c k = some m) : m.tmdb_id = i := by
  cases d with
  | none => exact Option.noConfusion h
  | some dd =>
    rw [Analyze.fetch_comprehensive_film_details] at h
    cases h
    rfl

theorem mem_metadataOf {details : ℤ → Option TmdbDetails} {credits : ℤ → Option TmdbCredits}
    {keywords : ℤ → Option TmdbKeywords} {m : Analyze.AnalyzeMetaRow} {ids : List ℤ}
    (hm : m ∈ Analyze.metadataOf details credits keywords ids) : m.tmdb_id ∈ ids := by
  rw [Analyze.metadataOf, List.mem_filterMap] at hm
  obtain ⟨i, hi, hf⟩ := hm
  rw [fetch_id_eq hf]
  exact hi

theorem metadataOf_filter_le (details : ℤ → Option TmdbDetails)
    (credits : ℤ → Option TmdbCredits) (keywords : ℤ → Option TmdbKeywords) (i : ℤ) :
    ∀ (ids : List ℤ), ids.Nodup →
      ((Analyze.metadataOf details credits keywords ids).filter
        (fun m => decide (m.tmdb_id = i))).length ≤ 1
  | [], _ => by simp [Analyze.metadataOf]
  | j :: rest, h => by
    rw [List.nodup_cons] at h
    obtain ⟨hj, hrest⟩ := h
    cases hf : Analyze.fetch_comprehensive_film_details j (details j) (credits j) (keywords j) with
    | none =>
      rw [show Analyze.metadataOf details credits keywords (j :: rest)
          = Analyze.metadataOf details credits keywords rest from by
        simp only [Analyze.metadataOf, List.filterMap_cons, hf]]
      exact metadataOf_filter_le details credits keywords i rest hrest
    | some row =>
      rw [show Analyze.metadataOf details credits keywords (j :: rest)
          = row :: Analyze.metadataOf details credits keywords rest from by
        simp only [Analyze.metadataOf, List.filterMap_cons, hf]]
      rw [List.filter_cons]
      by_cases hrow : row.tmdb_id = i
      · rw [if_pos (by simpa using hrow)]
        have hnil : (Analyze.metadataOf details credits keywords rest).filter
            (fun m => decide (m.tmdb_id = i)) = [] := by
          rw [List.filter_eq_nil_iff]
          intro m hm hmi
          have : m.tmdb_id ∈ rest := mem_metadataOf hm
          rw [show m.tmdb_id = i from by simpa using hmi] at this
          rw [← hrow] at this
          rw [fetch_id_eq hf] at this
          exact hj this
        rw [hnil]
        simp
      · rw [if_neg (by simpa using hrow)]
        exact metadataOf_filter_le details credits keywords i rest hrest

theorem mergeRowsFor_key (md : List Analyze.AnalyzeMetaRow)
    (p : (String × PyYear) × Option ℤ)
    (h : ∀ i : ℤ, ((md.filter (fun m => decide (m.tmdb_id = i))).length ≤ 1)) :
    (Analyze.mergeRowsFor md p).map Analyze.rowKey = [p.1] := by
  rcases p with ⟨k, oid⟩
  cases oid with
  | none => rfl
  | some i =>
    have hi := h i
    rw [show Analyze.mergeRowsFor md (k, some i)
        = (match md.filter (fun m => decide (m.tmdb_id = i)) with
           | [] => [⟨k.1, k.2, some i, none⟩]
           | ms => ms.map (fun m => ⟨k.1, k.2, some i, some m⟩)) from rfl]
    cases hfil : md.filter (fun m => decide (m.tmdb_id = i)) with
    | nil => rfl
    | cons m ms =>
      rw [hfil] at hi
      have hms : ms = [] := by
        rcases ms with _ | ⟨m2, ms2⟩
        · rfl
        · exact absurd hi (by simp)
      subst hms
      rfl

theorem leftMerge_map_rowKey (md : List Analyze.AnalyzeMetaRow)
    (h : ∀ i : ℤ, ((md.filter (fun m => decide (m.tmdb_id = i))).length ≤ 1)) :
    ∀ (uf : List ((String × PyYear) × Option ℤ)),
      (Analyze.leftMerge uf md).map Analyze.rowKey = uf.map (fun p => p.1)
  | [] => rfl
  | p :: ps => by
    rw [show Analyze.leftMerge (p :: ps) md
        = Analyze.mergeRowsFor md p ++ Analyze.leftMerge ps md from rfl]
    rw [List.map_append, leftMerge_map_rowKey md h ps, mergeRowsFor_key md p h]
    rfl

theorem leftMerge_null_meta (md : List Analyze.AnalyzeMetaRow) :
    ∀ (uf : List ((String × PyYear) × Option ℤ)) (r : Analyze.EnrichedRow),
      r ∈ Analyze.leftMerge uf md → r.tmdb_id = none → r.meta = none
  | [], r, hr => by cases hr
  | p :: ps, r, hr => by
    intro hnone
    rw [show Analyze.leftMerge (p :: ps) md
        = Analyze.mergeRowsFor md p ++ Analyze.leftMerge ps md from rfl,
      List.mem_append] at hr
    rcases hr with hr | hr
    · rcases p with ⟨k, oid⟩
      cases oid with
      | none =>
        rcases List.mem_singleton.mp hr with rfl
        rfl
      | some i =>
        exfalso
        rw [show Analyze.mergeRowsFor md (k, some i)
            = (match md.filter (fun m => decide (m.tmdb_id = i)) with
               | [] => [⟨k.1, k.2, some i, none⟩]
               | ms => ms.map (fun m => ⟨k.1, k.2, some i, some m⟩)) from rfl] at hr
        rcases hfil : md.filter (fun m => decide (m.tmdb_id = i)) with _ | ⟨m, ms⟩ <;>
          rw [hfil] at hr
        · rcases List.mem_singleton.mp hr with rfl
          exact Option.noConfusion hnone
        · rw [List.mem_map] at hr
          obtain ⟨m2, _, hm2⟩ := hr
          rw [← hm2] at hnone
          exact Option.noConfusion hnone
    · exact leftMerge_null_meta md ps r hr hnone

theorem lookupParam_insertParam (k : String) (v : PVal) :
    ∀ (ps : Params), lookupParam k (insertParam k v ps) = some v
  | [] => by simp [insertParam, lookupParam, List.find?]
  | (x, w) :: rest => by
    by_cases hx : x = k
    · simp [insertParam, hx, lookupParam, List.find?]
    · rw [show insertParam k v ((x, w) :: rest) = (x, w) :: insertParam k v rest from by
        simp [insertParam, hx]]
      rw [show lookupParam k ((x, w) :: insertParam k v rest)
          = lookupParam k (insertParam k v rest) from by
        simp [lookupParam, List.find?, hx]]
      exact lookupParam_insertParam k v rest

theorem films_enriched_of_ne_noUsableData (resolve : String → PyYear → Option ℤ)
    (details : ℤ → Option TmdbDetails) (credits : ℤ → Option TmdbCredits)
    (keywords : ℤ → Option TmdbKeywords) (rrows : List RatingsRow) :
    Analyze.films_enriched_of resolve details credits keywords rrows
      ≠ .error .noUsableData := by
  rw [Analyze.films_enriched_of]
  split <;> simp

theorem statsOf_ne_noUsableData (rrows : List RatingsRow)
    (fe : List Analyze.EnrichedRow) :
    Analyze.statsOf rrows fe ≠ .error .noUsableData := by
  intro hc
  rw [Analyze.statsOf] at hc
  dsimp only [] at hc
  repeat split at hc
  all_goals exact absurd hc (by simp)

theorem resolvedOf_map_fst (resolve : String → PyYear → Option ℤ) :
    ∀ (uniq : List (String × PyYear)),
      (Analyze.resolvedOf resolve uniq).map (fun p => p.1) = uniq
  | [] => rfl
  | k :: ks => by
    rw [show Analyze.resolvedOf resolve (k :: ks)
        = (k, resolve k.1 k.2) :: Analyze.resolvedOf resolve ks from rfl,
      List.map_cons, resolvedOf_map_fst resolve ks]

/- ---------------------------------------------------------------------- -/
/- Claim theorems.                                                        -/
/- ---------------------------------------------------------------------- -/

/-- Claim C1: completeness of the left-join. Whenever the merge stage of
analyze.py (lines 161-168) produces an enriched dataset, that dataset carries
exactly one row per unique (title, year) input key, in input order -- so its
length always equals the length of the unique-film input -- and a key whose
resolution returned none is retained with null metadata, never dropped. -/
theorem c1_left_join_completeness (resolve : String → PyYear → Option ℤ)
    (details : ℤ → Option TmdbDetails) (credits : ℤ → Option TmdbCredits)
    (keywords : ℤ → Option TmdbKeywords) (rrows : List RatingsRow)
    (ds : List Analyze.EnrichedRow)
    (h : Analyze.films_enriched_of resolve details credits keywords rrows = .ok ds) :
    ds.map Analyze.rowKey = Analyze.uniqueFilmsOf rrows ∧
    ds.length = (Analyze.uniqueFilmsOf rrows).length ∧
    ∀ r ∈ ds, r.tmdb_id = none → r.meta = none := by
  rw [Analyze.films_enriched_of] at h
  split at h
  · exact Except.noConfusion h
  · replace h := Except.ok.inj h
    subst h
    have hfl : ∀ i : ℤ, ((Analyze.metadataOf details credits keywords
        (Analyze.fetchIdsOf ((Analyze.resolvedOf resolve (Analyze.uniqueFilmsOf rrows)).map
          (fun p => p.2)))).filter (fun m => decide (m.tmdb_id = i))).length ≤ 1 := by
      intro i
      refine metadataOf_filter_le details credits keywords i _ ?_
      rw [Analyze.fetchIdsOf]
      exact nodup_dedupFirst _
    have h1 := leftMerge_map_rowKey _ hfl
      (Analyze.resolvedOf resolve (Analyze.uniqueFilmsOf rrows))
    rw [resolvedOf_map_fst] at h1
    refine ⟨h1, ?_, ?_⟩
    · have h2 := congrArg List.length h1
      rw [List.length_map] at h2
      exact h2
    · exact leftMerge_null_meta _ _

theorem c1_left_join_completeness_witness :
    Analyze.films_enriched_of resolveW detailsFnW creditsFnW keywordsFnW rowsW = .ok dsW ∧
    dsW.map Analyze.rowKey = Analyze.uniqueFilmsOf rowsW ∧
    dsW.length = (Analyze.uniqueFilmsOf rowsW).length := by
  have h := c1_left_join_completeness resolveW detailsFnW creditsFnW keywordsFnW rowsW dsW
    (by decide)
  exact ⟨by decide, h.1, h.2.1⟩

/-- Claim C2 (code bug): graceful degradation on total resolution failure
fails in the code. When the resolver returns none for every unique film, the
fetch stage runs zero tasks, metadata_results is empty, and
pd.DataFrame([]) has no columns at all, so the left merge on tmdb_id at
analyze.py line 168 raises KeyError: tmdb_id. The pipeline therefore aborts
with an exception instead of returning a Statistics value with zero-length
ranking lists. -/
theorem c2_total_resolution_failure_crashes :
    Analyze.process_comprehensive_letterboxd_data (fun _ _ => none)
      detailsP creditsP keywordsP (some [prowW]) none
      = .error (.keyError "tmdb_id") := by decide

/-- Claim C3: deduplication before fetch. The id list handed to the fetch
stage (unique_films[tmdb_id].dropna().unique(), analyze.py line 161) has no
duplicates and contains an id exactly once when some key resolved to it;
unresolved (null) ids never appear, so each distinct non-null resolved id is
fetched exactly once and null ids are never fetched. -/
theorem c3_dedup_before_fetch (ids : List (Option ℤ)) :
    (Analyze.fetchIdsOf ids).Nodup ∧
    ∀ i : ℤ, (Analyze.fetchIdsOf ids).count i = if some i ∈ ids then 1 else 0 := by
  have hnd : (Analyze.fetchIdsOf ids).Nodup := by
    rw [Analyze.fetchIdsOf]
    exact nodup_dedupFirst _
  refine ⟨hnd, fun i => ?_⟩
  by_cases hm : some i ∈ ids
  · rw [if_pos hm]
    exact List.count_eq_one_of_mem hnd ((mem_fetchIdsOf ids i).mpr hm)
  · rw [if_neg hm, List.count_eq_zero]
    intro hmem
    exact hm ((mem_fetchIdsOf ids i).mp hmem)

/-- Claim C8 counterexample: the claim states the pipeline aborts before the
enrichment core if and only if ratings and diary are both empty, and that it
proceeds whenever one of them is non-empty. The backend variant cited by the
claim (main.py lines 231-236) aborts whenever watched.csv is empty, even
though both ratings and diary are present and non-empty. -/
theorem c8_input_guard_counterexample :
    Backend.process_load_guard none (some [prowW]) (some [prowW])
      = .error .watchedRequired ∧
    dfEmpty (some [prowW]) = false := by decide

/-- Claim C8 (amended): in the serverless pipeline (analyze.py) the pre-core
guard raises the no-usable-data error exactly when ratings and diary are both
empty; the backend pipeline (main.py) instead aborts exactly when watched.csv
is empty, regardless of ratings and diary. Passing the analyze.py guard does
not guarantee the core runs: films are built from ratings alone, so a
diary-only input fails immediately afterwards with a KeyError on the title
and year columns. -/
theorem c8_input_guard_amended :
    (∀ (resolve : String → PyYear → Option ℤ) (details : ℤ → Option TmdbDetails)
       (credits : ℤ → Option TmdbCredits) (keywords : ℤ → Option TmdbKeywords)
       (ratings diary : Option (List RatingsRow)),
       (Analyze.process_comprehensive_letterboxd_data resolve details credits keywords
          ratings diary = .error .noUsableData)
         ↔ (dfEmpty ratings = true ∧ dfEmpty diary = true)) ∧
    (∀ (watched ratings diary : Option (List RatingsRow)),
       (Backend.process_load_guard watched ratings diary = .error .watchedRequired)
         ↔ dfEmpty watched = true) ∧
    (∀ (drows : List RatingsRow) (resolve : String → PyYear → Option ℤ)
       (details : ℤ → Option TmdbDetails) (credits : ℤ → Option TmdbCredits)
       (keywords : ℤ → Option TmdbKeywords), drows ≠ [] →
       Analyze.process_comprehensive_letterboxd_data resolve details credits keywords
         none (some drows) = .error (.keyError "title")) := by
  refine ⟨?_, ?_, ?_⟩
  · intro resolve details credits keywords ratings diary
    constructor
    · intro h
      by_cases hc : (dfEmpty ratings && dfEmpty diary) = true
      · simpa [Bool.and_eq_true] using hc
      · exfalso
        rw [Analyze.process_comprehensive_letterboxd_data.eq_def, if_neg hc] at h
        cases ratings with
        | none => simp at h
        | some rrows =>
          have h2 : (match Analyze.films_enriched_of resolve details credits keywords rrows with
              | Except.error e => Except.error e
              | Except.ok fe => Analyze.statsOf rrows fe)
              = Except.error PyError.noUsableData := h
          cases hfe : Analyze.films_enriched_of resolve details credits keywords rrows with
          | error e =>
            rw [hfe] at h2
            have he : e = .noUsableData := by simpa using h2
            exact films_enriched_of_ne_noUsableData resolve details credits keywords rrows
              (by rw [hfe, he])
          | ok fe =>
            rw [hfe] at h2
            exact statsOf_ne_noUsableData rrows fe h2
    · rintro ⟨h1, h2⟩
      rw [Analyze.process_comprehensive_letterboxd_data.eq_def, if_pos (by rw [h1, h2]; rfl)]
  · intro watched ratings diary
    rw [Backend.process_load_guard]
    by_cases hw : dfEmpty watched = true
    · simp [hw]
    · simp [hw]
  · intro drows resolve details credits keywords hne
    cases drows with
    | nil => exact absurd rfl hne
    | cons a as => rfl

theorem c8_input_guard_amended_witness :
    Analyze.process_comprehensive_letterboxd_data resolveW detailsFnW creditsFnW keywordsFnW
      none (some [prowW]) = .error (.keyError "title") :=
  c8_input_guard_amended.2.2 [prowW] resolveW detailsFnW creditsFnW keywordsFnW (by decide)

/-- Claim C9: the duplicate-row scenario. For the input of two identical
ratings rows (Parasite, 2019, 5.0), deduplication yields exactly one unique
film key; the rating distribution reported by the analyze.py statistics is
computed over the raw entries, giving 5.0 mapped to 2; and total_films, the
unique-key count reported by route.py, is 1. -/
theorem c9_duplicate_rows_scenario :
    Analyze.uniqueFilmsOf [prowW, prowW] = [("Parasite", PyYear.int 2019)] ∧
    (Analyze.process_comprehensive_letterboxd_data resolveP detailsP creditsP keywordsP
        (some [prowW, prowW]) none).map
      (fun s => s.rating_distribution)
      = .ok [((5 : ℚ), 2)] ∧
    (Front.process_letterboxd_data (some [prowW, prowW]) none).map
      (fun s => s.total_films) = .ok 1 := by decide

/-- Claim C4: resolver algorithm. When a year constraint was attached and the
constrained search yields zero results, the resolver retries exactly once
with the year dropped and returns the id of the first result of that retry
with no local scoring; when the first query yields results, it returns the
id of its first result with no second query; and a client that answers none
for every query makes the resolver return none rather than propagate. -/
theorem c4_resolver_algorithm (search : String → Option ℤ → Option SearchData)
    (title : String) (year : PyYear) :
    (∀ y : ℤ, yearParamOf year = some y →
       resolveResultsOf search title (some y) = [] →
       resolve_tmdb_id_run search title year
         = (firstId (resolveResultsOf search title none), [some y, none])) ∧
    (resolveResultsOf search title (yearParamOf year) ≠ [] →
       resolve_tmdb_id_run search title year
         = (firstId (resolveResultsOf search title (yearParamOf year)), [yearParamOf year])) ∧
    ((∀ yp : Option ℤ, search title yp = none) →
       resolve_tmdb_id search title year = none) := by
  refine ⟨?_, ?_, ?_⟩
  · intro y hy hres
    have hyr : year = PyYear.int y := by
      cases year with
      | pnone => exact absurd hy (by simp [yearParamOf])
      | nan => exact absurd hy (by simp [yearParamOf])
      | int n =>
        rw [yearParamOf] at hy
        split at hy
        · cases hy
          rfl
        · exact Option.noConfusion hy
    subst hyr
    have hnz : y ≠ 0 := by
      intro h0
      subst h0
      simp [yearParamOf] at hy
    have hyp : yearParamOf (PyYear.int y) = some y := hy
    rw [resolve_tmdb_id_run, hyp, hres]
    simp [PyYear.truthy, hnz]
  · intro hne
    have hfalse : (resolveResultsOf search title (yearParamOf year)).isEmpty = false := by
      cases hres : resolveResultsOf search title (yearParamOf year) with
      | nil => exact absurd hres hne
      | cons a as => rfl
    rw [resolve_tmdb_id_run, hfalse]
    simp
  · intro hall
    have hres : ∀ yp : Option ℤ, resolveResultsOf search title yp = [] := by
      intro yp
      rw [resolveResultsOf, hall yp]
    rw [resolve_tmdb_id, resolve_tmdb_id_run]
    simp only [hres]
    cases htr : year.truthy <;> simp [firstId]

theorem c4_resolver_algorithm_witness :
    resolve_tmdb_id_run searchW "Memento" (PyYear.int 2000) = (some 42, [some 2000, none]) := by
  have h := (c4_resolver_algorithm searchW "Memento" (PyYear.int 2000)).1 2000
    (by decide) (by decide)
  rw [h]
  decide

/-- Claim C5: decade derivation. The backend fetcher parses the first four
characters of the release date as a year and floors to the decade with an s
suffix: release date 1994-09-23 yields 1990s; a missing or empty release
date yields a null decade; a malformed date whose first four characters do
not parse as an integer yields a null decade with no exception. In the
serverless variant the same malformed date is caught by the outer handler:
the fetch still raises nothing and returns the minimal row whose decade
column is null. -/
theorem c5_decade_derivation :
    (∀ (id : ℤ) (c : Option TmdbCredits) (k : Option TmdbKeywords) (d : TmdbDetails),
       d.release_date = some "1994-09-23" →
       (Backend.fetch_comprehensive_film_details id (some d) c k).map (fun r => r.decade)
         = some (some "1990s")) ∧
    (∀ (id : ℤ) (c : Option TmdbCredits) (k : Option TmdbKeywords) (d : TmdbDetails),
       d.release_date.getD "" = "" →
       (Backend.fetch_comprehensive_film_details id (some d) c k).map (fun r => r.decade)
         = some none) ∧
    (∀ (id : ℤ) (c : Option TmdbCredits) (k : Option TmdbKeywords) (d : TmdbDetails)
       (s : String), d.release_date = some s → pyInt? (strTake s 4) = none →
       (Backend.fetch_comprehensive_film_details id (some d) c k).map (fun r => r.decade)
         = some none) ∧
    (∀ (id : ℤ) (c : Option TmdbCredits) (k : Option TmdbKeywords) (d : TmdbDetails)
       (s : String) (y : ℤ), d.release_date = some s → s ≠ "" →
       pyInt? (strTake s 4) = some y →
       (Backend.fetch_comprehensive_film_details id (some d) c k).map (fun r => r.decade)
         = some (some (decadeStr y))) ∧
    (∀ (id : ℤ) (c : Option TmdbCredits) (k : Option TmdbKeywords) (d : TmdbDetails)
       (s : String), d.release_date = some s → s ≠ "" → pyInt? (strTake s 4) = none →
       Analyze.fetch_comprehensive_film_details id (some d) c k
         = some { tmdb_id := id, rest := none }) := by
  have hgen : ∀ (id : ℤ) (c : Option TmdbCredits) (k : Option TmdbKeywords) (d : TmdbDetails),
      (Backend.fetch_comprehensive_film_details id (some d) c k).map (fun r => r.decade)
        = some (if (d.release_date.getD "") ≠ "" then
            match pyInt? (strTake (d.release_date.getD "") 4) with
            | some y => some (decadeStr y)
            | none => none
          else none) := fun id c k d => rfl
  refine ⟨?_, ?_, ?_, ?_, ?_⟩
  · intro id c k d hrel
    rw [hgen, hrel]
    decide
  · intro id c k d hrel
    rw [hgen, hrel]
    decide
  · intro id c k d s hrel hpy
    rw [hgen, hrel]
    simp only [Option.getD_some]
    by_cases hs : s = ""
    · subst hs
      decide
    · simp [hs, hpy]
  · intro id c k d s y hrel hs hpy
    rw [hgen, hrel]
    simp only [Option.getD_some]
    simp [hs, hpy]
  · intro id c k d s hrel hs hpy
    rw [Analyze.fetch_comprehensive_film_details]
    rw [show Analyze.recordRest d c = none from by
      rw [Analyze.recordRest.eq_def, hrel]
      simp [hs, hpy]]

theorem c5_decade_derivation_witness :
    (Backend.fetch_comprehensive_film_details 7 (some c5dW) none none).map (fun r => r.decade)
      = some (some "1990s") :=
  c5_decade_derivation.1 7 none none c5dW rfl

/-- Claim C6: cache hit short-circuit. With caching on, a readable cache
entry for the derived key makes tmdb_get return the cached payload verbatim
with no network request and an unchanged state; an unreadable (corrupt)
entry is treated as a miss and tmdb_get falls through to the fresh-fetch
branch, which attempts exactly one network request. -/
theorem c6_cache_hit_short_circuit {P : Type} (apiKey : String)
    (net : String → Params → NetResult P) (st : ClientState P)
    (endpoint : String) (params0 : Option Params) (e : CacheEntry P)
    (h : lookupCache (tmdb_cacheKey apiKey endpoint params0) st = some e) :
    (e.readable = true →
       tmdb_get apiKey net st endpoint params0 true = ⟨.ok (some e.payload), st, []⟩) ∧
    (e.readable = false →
       tmdb_get apiKey net st endpoint params0 true
         = tmdb_fetchFresh apiKey net st endpoint params0 ∧
       (tmdb_fetchFresh apiKey net st endpoint params0).requests
         = [(endpoint, tmdb_params apiKey params0)]) := by
  constructor
  · intro hr
    simp [tmdb_get, h, hr]
  · intro hr
    refine ⟨by simp [tmdb_get, h, hr], ?_⟩
    rw [tmdb_fetchFresh]
    cases hn : net endpoint (tmdb_params apiKey params0) <;> rfl

theorem c6_cache_hit_short_circuit_witness :
    tmdb_get "K" netW stHitW "search/movie" (some pwParams) true
      = ⟨.ok (some 7), stHitW, []⟩ := by
  have h := c6_cache_hit_short_circuit "K" netW stHitW "search/movie" (some pwParams)
    ⟨7, true⟩ (by decide)
  exact h.1 rfl

/-- Claim C7 counterexample: the claim says the client never throws for a
malformed response body. The except clause at analyze.py line 72 and main.py
line 121 catches only aiohttp.ClientError; a malformed JSON body served with
a JSON content type makes await response.json() raise json.JSONDecodeError,
a ValueError outside that class, so the exception escapes tmdb_get instead
of yielding a None result. -/
theorem c7_client_failure_counterexample :
    tmdb_get "K" netJsonErrW stEmptyW "search/movie" (some pwParams) true
      = ⟨.error .jsonDecodeError, stEmptyW,
         [("search/movie", tmdb_params "K" (some pwParams))]⟩ ∧
    (tmdb_get "K" netJsonErrW stEmptyW "search/movie" (some pwParams) true).result
      ≠ .ok none := by decide

/-- Claim C7 (amended): on any aiohttp.ClientError -- a transport error, an
HTTP status error from raise_for_status, or a body served with a non-JSON
content type -- tmdb_get returns None with the cache state untouched after
attempting exactly one request, so a later retry can fetch fresh. A
malformed JSON body served WITH a JSON content type instead raises
json.JSONDecodeError, which is not an aiohttp.ClientError and propagates out
of tmdb_get uncaught -- also with no cache write, since the write sits after
the parse on the success path. -/
theorem c7_client_failure_contract {P : Type} (apiKey : String)
    (net : String → Params → NetResult P) (st : ClientState P)
    (endpoint : String) (params0 : Option Params) (useCache : Bool)
    (hmiss : ∀ e : CacheEntry P,
      lookupCache (tmdb_cacheKey apiKey endpoint params0) st = some e → e.readable = false) :
    (net endpoint (tmdb_params apiKey params0) = .clientError →
       tmdb_get apiKey net st endpoint params0 useCache
         = ⟨.ok none, st, [(endpoint, tmdb_params apiKey params0)]⟩) ∧
    (net endpoint (tmdb_params apiKey params0) = .jsonDecodeError →
       tmdb_get apiKey net st endpoint params0 useCache
         = ⟨.error .jsonDecodeError, st, [(endpoint, tmdb_params apiKey params0)]⟩) := by
  have key : ∀ out : GetOutcome P,
      tmdb_fetchFresh apiKey net st endpoint params0 = out →
      tmdb_get apiKey net st endpoint params0 useCache = out := by
    intro out hfresh
    cases useCache with
    | false => simpa [tmdb_get] using hfresh
    | true =>
      cases hl : lookupCache (tmdb_cacheKey apiKey endpoint params0) st with
      | none =>
        rw [tmdb_get]
        simp only [if_true, hl]
        exact hfresh
      | some e =>
        have hre := hmiss e hl
        rw [tmdb_get]
        simp only [if_true, hl, hre]
        exact hfresh
  constructor
  · intro herr
    exact key _ (by rw [tmdb_fetchFresh, herr])
  · intro herr
    exact key _ (by rw [tmdb_fetchFresh, herr])

theorem c7_client_failure_contract_witness :
    tmdb_get "K" netErrW stEmptyW "search/movie" (some pwParams) true
      = ⟨.ok none, stEmptyW, [("search/movie", tmdb_params "K" (some pwParams))]⟩ :=
  (c7_client_failure_contract "K" netErrW stEmptyW "search/movie" (some pwParams) true
    (fun _ he => Option.noConfusion he)).1 rfl

/-- Claim C10 counterexample: the claim quantifies over every call with a
non-None params dictionary, but an empty dict is falsy in Python, so
params or {} rebinds the local name to a fresh dict and the empty
dictionary of the caller is left untouched: after the call it still has no api_key entry. -/
theorem c10_param_mutation_counterexample :
    tmdb_callerParams "SECRET" (some []) = some [] ∧
    (tmdb_callerParams "SECRET" (some [])).map (lookupParam "api_key") = some none := by
  decide

/-- Claim C10 (amended): for every call to the client with a NON-EMPTY params
dictionary, the dictionary of the caller is mutated in place: after the call it
contains the credential under api_key, and the cache key is derived from the
credential-bearing dictionary, so the credential value participates in the
cache-key hash. -/
theorem c10_param_mutation_amended (apiKey : String) (p : Params) (endpoint : String)
    (hp : p ≠ []) :
    tmdb_callerParams apiKey (some p) = some (insertParam "api_key" (.str apiKey) p) ∧
    lookupParam "api_key" (insertParam "api_key" (.str apiKey) p) = some (.str apiKey) ∧
    tmdb_cacheKey apiKey endpoint (some p)
      = cacheKeyOf endpoint (insertParam "api_key" (.str apiKey) p) := by
  refine ⟨?_, lookupParam_insertParam _ _ _, rfl⟩
  rw [tmdb_callerParams]
  have hemp : p.isEmpty = false := by
    cases p with
    | nil => exact absurd rfl hp
    | cons a as => rfl
  simp [hemp]
  intro h0
  exact absurd h0 hp

theorem c10_param_mutation_amended_witness :
    tmdb_callerParams "K" (some pwParams) = some (insertParam "api_key" (PVal.str "K") pwParams) ∧
    lookupParam "api_key" (insertParam "api_key" (PVal.str "K") pwParams)
      = some (PVal.str "K") ∧
    tmdb_cacheKey "K" "search/movie" (some pwParams)
      = cacheKeyOf "search/movie" (insertParam "api_key" (PVal.str "K") pwParams) :=
  c10_param_mutation_amended "K" pwParams "search/movie" (by decide)
